import Mathlib

/-!
# Settings.h of the Elcano high-level board (TempArchive/HighLevel_Test)

The header is a list of preprocessor directives and one file-scope constant.
It is embedded twice:

* as a transcript, `header`, one entry per non-blank source line, processed by
  a small model of the preprocessor (`process`, `inEffect`, `readAt`);
* as one Lean constant per source symbol, carrying the source name and value.

`header_in_effect` ties the two together.
-/

namespace Settings

/-! ## Data model -/

/-- Names that Settings.h introduces (identifiers are case sensitive, so
`TURN_SPEED` and `turn_speed` are different symbols). -/
inductive Symbol
  | DEBUG
  | DEBUG_C4
  | DEBUG2
  | DEBUG3
  | CONES
  | MAX_WAYPOINTS
  | ORIGIN_LAT
  | ORIGIN_LONG
  | MAX_CAN_FRAME_DATA_LEN_16
  | TURN_RADIUS_MM
  | MIN_TURNING_RADIUS_MM
  | TURN_SPEED
  | DESIRED_SPEED_mmPs
  | turn_speed
  deriving DecidableEq, Repr

/-- Replacement text of a definition, by the kind of literal it holds.
A decimal literal is kept exactly: `dec m k` stands for `m / 10 ^ k`. -/
inductive Value
  | bool (b : Bool)
  | int (n : Int)
  | dec (mantissa : Int) (places : Nat)
  deriving DecidableEq, Repr

/-- Exact rational value of a numeric literal. -/
def Value.toRat : Value → Option ℚ
  | Value.bool _ => none
  | Value.int n => some (n : ℚ)
  | Value.dec m k => some ((m : ℚ) / (10 : ℚ) ^ k)

/-- One non-blank line of the header. -/
inductive Line
  | pragmaOnce
  | includeFile (file : String)
  | usingNamespace (ns : String)
  | define (s : Symbol) (v : Value)
  | commentedOut (s : Symbol) (v : Value)
  | comment
  | constLong (s : Symbol) (n : Int)
  deriving DecidableEq, Repr

/-- Settings.h, line by line (blank lines left out). -/
def header : List Line :=
  [ Line.pragmaOnce,
    Line.includeFile "Common.h",
    Line.includeFile "due_can.h",
    Line.includeFile "Can_Protocol.h",
    Line.usingNamespace "elcano",
    Line.define Symbol.DEBUG (Value.bool true),
    Line.define Symbol.DEBUG_C4 (Value.bool false),
    Line.define Symbol.DEBUG2 (Value.bool true),
    Line.define Symbol.DEBUG3 (Value.bool true),
    Line.define Symbol.CONES (Value.int 6),
    Line.define Symbol.MAX_WAYPOINTS (Value.int 50),
    Line.comment,
    Line.define Symbol.ORIGIN_LAT (Value.dec 47758949 6),
    Line.define Symbol.ORIGIN_LONG (Value.dec (-122190746) 6),
    Line.comment,
    Line.commentedOut Symbol.ORIGIN_LAT (Value.dec 47760850 6),
    Line.commentedOut Symbol.ORIGIN_LONG (Value.dec (-122190044) 6),
    Line.define Symbol.MAX_CAN_FRAME_DATA_LEN_16 (Value.int 16),
    Line.define Symbol.TURN_RADIUS_MM (Value.int 1000),
    Line.define Symbol.MIN_TURNING_RADIUS_MM (Value.int 1000),
    Line.define Symbol.TURN_SPEED (Value.int 1050),
    Line.define Symbol.DESIRED_SPEED_mmPs (Value.int 1600),
    Line.define Symbol.TURN_SPEED (Value.int 1050),
    Line.define Symbol.DESIRED_SPEED_mmPs (Value.int 1600),
    Line.constLong Symbol.turn_speed 835 ]

/-! ## Processing the header -/

/-- Table of the definitions in effect: most recent binding first. -/
abbrev Table := List (Symbol × Value)

/-- Effect of one line on the table. A `#define` and the `const long`
declaration each bind their name; every other line leaves the table alone. -/
def step (t : Table) : Line → Table
  | Line.define s v => (s, v) :: t
  | Line.constLong s n => (s, Value.int n) :: t
  | _ => t

/-- Table after the given lines, starting from `t`. -/
def process (t : Table) (ls : List Line) : Table :=
  ls.foldl step t

/-- Value a name stands for in a table: its most recent binding. -/
def Table.find (t : Table) (s : Symbol) : Option Value :=
  (t.find? (fun p => p.1 = s)).map Prod.snd

/-- Value a name stands for once the given lines are processed. -/
def inEffect (ls : List Line) (s : Symbol) : Option Value :=
  Table.find (process [] ls) s

/-- Value a read of `s` yields when it happens after the first `i` lines. -/
def readAt (i : Nat) (s : Symbol) : Option Value :=
  inEffect (header.take i) s

/-- All values a name is given by the lines, in source order. -/
def definitions (ls : List Line) (s : Symbol) : List Value :=
  ls.filterMap fun l =>
    match l with
    | Line.define s1 v => if s1 = s then some v else none
    | Line.constLong s1 n => if s1 = s then some (Value.int n) else none
    | _ => none

/-- Names defined with a boolean literal, with their values: the logging
toggles of the header. -/
def debugFlags (ls : List Line) : List (Symbol × Bool) :=
  ls.filterMap fun l =>
    match l with
    | Line.define s (Value.bool b) => some (s, b)
    | _ => none

/-- Names defined with an integer literal, with their values, one entry per
defining line. -/
def integerConstants (ls : List Line) : List (Symbol × Int) :=
  ls.filterMap fun l =>
    match l with
    | Line.define s (Value.int n) => some (s, n)
    | Line.constLong s n => some (s, n)
    | _ => none

/-! ## The constants, by their source names -/

/-- Source: `#define DEBUG true`. -/
def DEBUG : Bool := true
/-- Source: `#define DEBUG_C4 false`. -/
def DEBUG_C4 : Bool := false
/-- Source: `#define DEBUG2 true`. -/
def DEBUG2 : Bool := true
/-- Source: `#define DEBUG3 true`. -/
def DEBUG3 : Bool := true
/-- Source: `#define CONES 6`. -/
def CONES : Int := 6
/-- Source: `#define MAX_WAYPOINTS 50`. -/
def MAX_WAYPOINTS : Int := 50
/-- Source: `#define ORIGIN_LAT 47.758949`, read as an exact decimal. -/
def ORIGIN_LAT : ℚ := 47758949 / 10 ^ 6
/-- Source: `#define ORIGIN_LONG -122.190746`, read as an exact decimal. -/
def ORIGIN_LONG : ℚ := -122190746 / 10 ^ 6
/-- Source: `#define MAX_CAN_FRAME_DATA_LEN_16 16`. -/
def MAX_CAN_FRAME_DATA_LEN_16 : Int := 16
/-- Source: `#define TURN_RADIUS_MM 1000`. -/
def TURN_RADIUS_MM : Int := 1000
/-- Source: `#define MIN_TURNING_RADIUS_MM 1000`. -/
def MIN_TURNING_RADIUS_MM : Int := 1000
/-- Source: `#define TURN_SPEED 1050` (written twice). -/
def TURN_SPEED : Int := 1050
/-- Source: `#define DESIRED_SPEED_mmPs 1600` (written twice). -/
def DESIRED_SPEED_mmPs : Int := 1600
/-- Source: `const long turn_speed = 835;`. -/
def turn_speed : Int := 835

/-- Modelled from the spec: the frame data width the CAN transport layer
expects, in bytes. The transport layer (due_can.h, Can_Protocol.h) is not part
of the given sources; the spec fixes the width at 16. -/
def canTransportFrameDataWidth : Int := 16

/-! ## Machine integers -/

/-- Value obtained when `v` is stored in a two's complement integer of
`w` bits. -/
def wrapSigned (w : Nat) (v : Int) : Int :=
  (v + 2 ^ (w - 1)) % 2 ^ w - 2 ^ (w - 1)

/-- Property that an integer constant is a non-negative value of a signed 16
bit int, unchanged by 16 and 32 bit storage. -/
def FitsInt16 (v : Int) : Prop :=
  0 ≤ v ∧ v ≤ 32767 ∧ v % 2 ^ 16 = v ∧ wrapSigned 16 v = v ∧ wrapSigned 32 v = v

instance (v : Int) : Decidable (FitsInt16 v) := by
  unfold FitsInt16; infer_instance

/-- The eight integer symbols of the header. -/
def integerSymbols : List Symbol :=
  [ Symbol.CONES, Symbol.MAX_WAYPOINTS, Symbol.MAX_CAN_FRAME_DATA_LEN_16,
    Symbol.TURN_RADIUS_MM, Symbol.MIN_TURNING_RADIUS_MM, Symbol.TURN_SPEED,
    Symbol.DESIRED_SPEED_mmPs, Symbol.turn_speed ]

/-! ## The transcript and the named constants agree -/

theorem header_in_effect :
    inEffect header Symbol.DEBUG = some (Value.bool DEBUG) ∧
    inEffect header Symbol.DEBUG_C4 = some (Value.bool DEBUG_C4) ∧
    inEffect header Symbol.DEBUG2 = some (Value.bool DEBUG2) ∧
    inEffect header Symbol.DEBUG3 = some (Value.bool DEBUG3) ∧
    inEffect header Symbol.CONES = some (Value.int CONES) ∧
    inEffect header Symbol.MAX_WAYPOINTS = some (Value.int MAX_WAYPOINTS) ∧
    (inEffect header Symbol.ORIGIN_LAT).bind Value.toRat = some ORIGIN_LAT ∧
    (inEffect header Symbol.ORIGIN_LONG).bind Value.toRat = some ORIGIN_LONG ∧
    inEffect header Symbol.MAX_CAN_FRAME_DATA_LEN_16
      = some (Value.int MAX_CAN_FRAME_DATA_LEN_16) ∧
    inEffect header Symbol.TURN_RADIUS_MM = some (Value.int TURN_RADIUS_MM) ∧
    inEffect header Symbol.MIN_TURNING_RADIUS_MM
      = some (Value.int MIN_TURNING_RADIUS_MM) ∧
    inEffect header Symbol.TURN_SPEED = some (Value.int TURN_SPEED) ∧
    inEffect header Symbol.DESIRED_SPEED_mmPs
      = some (Value.int DESIRED_SPEED_mmPs) ∧
    inEffect header Symbol.turn_speed = some (Value.int turn_speed) := by
  refine ⟨by decide, by decide, by decide, by decide, by decide, by decide,
    ?_, ?_, by decide, by decide, by decide, by decide, by decide, by decide⟩
  · have h : inEffect header Symbol.ORIGIN_LAT
        = some (Value.dec 47758949 6) := by decide
    rw [h]; simp [Value.toRat, ORIGIN_LAT]
  · have h : inEffect header Symbol.ORIGIN_LONG
        = some (Value.dec (-122190746) 6) := by decide
    rw [h]; simp [Value.toRat, ORIGIN_LONG]

/-- A read after a prefix of the header finds either nothing or the value in
effect at the end of the header. -/
theorem readAt_none_or_final (i : Nat) (s : Symbol) :
    readAt i s = none ∨ readAt i s = inEffect header s := by
  by_cases h : i < 25
  · interval_cases i <;> cases s <;> decide
  · right
    have hlen : header.length ≤ i := by
      have : header.length = 25 := by decide
      omega
    simp [readAt, List.take_of_length_le hlen]

/-- A read after a prefix of the header finds either nothing or the value
found one line later. -/
theorem readAt_none_or_next (i : Nat) (s : Symbol) :
    readAt i s = none ∨ readAt i s = readAt (i + 1) s := by
  by_cases h : i < 25
  · interval_cases i <;> cases s <;> decide
  · right
    have hlen : header.length ≤ i := by
      have : header.length = 25 := by decide
      omega
    have hlen1 : header.length ≤ i + 1 := by omega
    simp [readAt, List.take_of_length_le hlen, List.take_of_length_le hlen1]

/-- A name that is bound after a prefix of the header is bound to the same
value one line later. -/
theorem readAt_succ (i : Nat) (s : Symbol) (v : Value)
    (h : readAt i s = some v) : readAt (i + 1) s = some v := by
  rcases readAt_none_or_next i s with h1 | h1
  · rw [h1] at h; exact absurd h (by simp)
  · rw [← h1]; exact h

/-! ## Claims -/

/-- C1: the mission waypoint count is positive and does not exceed the
waypoint table capacity, for the values 6 and 50 of the header. -/
theorem cones_within_max_waypoints :
    0 < CONES ∧ CONES ≤ MAX_WAYPOINTS ∧ CONES = 6 ∧ MAX_WAYPOINTS = 50 := by
  decide

/-- C2: every distance and speed constant of the header is strictly positive,
with a turn radius of 1000 and a desired speed of 1600. -/
theorem distances_and_speeds_positive :
    0 < TURN_RADIUS_MM ∧ 0 < MIN_TURNING_RADIUS_MM ∧ 0 < TURN_SPEED ∧
    0 < DESIRED_SPEED_mmPs ∧ 0 < turn_speed ∧
    TURN_RADIUS_MM = 1000 ∧ DESIRED_SPEED_mmPs = 1600 := by
  decide

/-- C3: the CAN frame payload length constant equals 16, the frame data width
the CAN transport layer expects. -/
theorem can_frame_data_len_is_16 :
    MAX_CAN_FRAME_DATA_LEN_16 = 16 ∧
    MAX_CAN_FRAME_DATA_LEN_16 = canTransportFrameDataWidth ∧
    inEffect header Symbol.MAX_CAN_FRAME_DATA_LEN_16 = some (Value.int 16) := by
  decide

/-- C4: the active origin is latitude 47.758949 and longitude -122.190746 as
exact decimals, inside the ranges -90..90 and -180..180. -/
theorem origin_in_valid_range :
    ORIGIN_LAT = 47.758949 ∧ ORIGIN_LONG = -122.190746 ∧
    -90 ≤ ORIGIN_LAT ∧ ORIGIN_LAT ≤ 90 ∧
    -180 ≤ ORIGIN_LONG ∧ ORIGIN_LONG ≤ 180 ∧
    inEffect header Symbol.ORIGIN_LAT = some (Value.dec 47758949 6) ∧
    inEffect header Symbol.ORIGIN_LONG = some (Value.dec (-122190746) 6) := by
  refine ⟨?_, ?_, ?_, ?_, ?_, ?_, by decide, by decide⟩ <;>
    norm_num [ORIGIN_LAT, ORIGIN_LONG]

/-- C5: the turn radius equals the minimum turning radius, so it is not below
the minimum. -/
theorem turn_radius_eq_min_turning_radius :
    TURN_RADIUS_MM = MIN_TURNING_RADIUS_MM ∧
    MIN_TURNING_RADIUS_MM ≤ TURN_RADIUS_MM ∧
    inEffect header Symbol.TURN_RADIUS_MM
      = inEffect header Symbol.MIN_TURNING_RADIUS_MM := by
  decide

/-- C6, as stated, fails: the debug toggles of the header are not three, and
they are not all among the general, CAN and navigation flags, because
`DEBUG_C4` is a fourth toggle. -/
theorem debug_flags_not_three :
    ¬ ((debugFlags header).length = 3 ∧
       ∀ p ∈ debugFlags header,
         p.1 = Symbol.DEBUG ∨ p.1 = Symbol.DEBUG2 ∨ p.1 = Symbol.DEBUG3) := by
  decide

/-- C6, amended: the header defines exactly four debug toggles, `DEBUG`
(general), `DEBUG_C4` (C4), `DEBUG2` (CAN bus) and `DEBUG3` (navigation and
pilot), with values true, false, true and true. -/
theorem debug_flags_are_four :
    debugFlags header =
      [ (Symbol.DEBUG, true), (Symbol.DEBUG_C4, false),
        (Symbol.DEBUG2, true), (Symbol.DEBUG3, true) ] ∧
    DEBUG = true ∧ DEBUG_C4 = false ∧ DEBUG2 = true ∧ DEBUG3 = true := by
  decide

/-- C7: no line of the header changes a constant that is already defined, so
two reads of the same constant, wherever they happen, return the same value. -/
theorem reads_agree (i j : Nat) (s : Symbol) (v w : Value)
    (hi : readAt i s = some v) (hj : readAt j s = some w) :
    v = w ∧ readAt (i + 1) s = some v := by
  refine ⟨?_, readAt_succ i s v hi⟩
  rcases readAt_none_or_final i s with h1 | h1
  · rw [h1] at hi; exact absurd hi (by simp)
  · rcases readAt_none_or_final j s with h2 | h2
    · rw [h2] at hj; exact absurd hj (by simp)
    · have : some v = some w := by rw [← hi, ← hj, h1, h2]
      exact Option.some.inj this

/-- Witness of C7: a read of `TURN_SPEED` between its two definitions and a
read at the end of the header. -/
theorem reads_agree_witness :
    readAt 21 Symbol.TURN_SPEED = some (Value.int 1050) ∧
    readAt 25 Symbol.TURN_SPEED = some (Value.int 1050) ∧
    (Value.int 1050 = Value.int 1050 ∧
      readAt (21 + 1) Symbol.TURN_SPEED = some (Value.int 1050)) :=
  ⟨by decide, by decide,
    reads_agree 21 25 Symbol.TURN_SPEED (Value.int 1050) (Value.int 1050)
      (by decide) (by decide)⟩

/-- C8: `TURN_SPEED` and `DESIRED_SPEED_mmPs` are each defined twice, the
second time with the value of the first (1050 and 1600), so a read yields the
same value whichever of the two definitions is in effect. -/
theorem duplicate_definitions_agree :
    definitions header Symbol.TURN_SPEED = [Value.int 1050, Value.int 1050] ∧
    definitions header Symbol.DESIRED_SPEED_mmPs
      = [Value.int 1600, Value.int 1600] ∧
    readAt 21 Symbol.TURN_SPEED = readAt 23 Symbol.TURN_SPEED ∧
    readAt 22 Symbol.DESIRED_SPEED_mmPs = readAt 24 Symbol.DESIRED_SPEED_mmPs ∧
    inEffect (header.eraseIdx 20) Symbol.TURN_SPEED
      = inEffect (header.eraseIdx 22) Symbol.TURN_SPEED ∧
    inEffect (header.eraseIdx 21) Symbol.DESIRED_SPEED_mmPs
      = inEffect (header.eraseIdx 23) Symbol.DESIRED_SPEED_mmPs ∧
    inEffect header Symbol.TURN_SPEED = some (Value.int 1050) ∧
    inEffect header Symbol.DESIRED_SPEED_mmPs = some (Value.int 1600) ∧
    TURN_SPEED = 1050 ∧ DESIRED_SPEED_mmPs = 1600 := by
  decide

/-- C9: the constant `turn_speed` is 835 and the definition `TURN_SPEED` is
1050, so the two turn speeds differ and `turn_speed` is the smaller. -/
theorem turn_speed_lt_TURN_SPEED :
    turn_speed = 835 ∧ TURN_SPEED = 1050 ∧
    turn_speed ≠ TURN_SPEED ∧ turn_speed < TURN_SPEED ∧
    inEffect header Symbol.turn_speed ≠ inEffect header Symbol.TURN_SPEED := by
  decide

/-- C10: every integer constant of the header lies in 0..32767 and is
unchanged by storage in a 16 bit or a 32 bit signed integer; the integer
constants are the eight named ones. -/
theorem integer_constants_fit_int16 (s : Symbol) (n : Int)
    (h : (s, n) ∈ integerConstants header) :
    FitsInt16 n ∧ s ∈ integerSymbols ∧
    ((integerConstants header).map Prod.fst).dedup = integerSymbols ∧
    FitsInt16 CONES ∧ FitsInt16 MAX_WAYPOINTS ∧
    FitsInt16 MAX_CAN_FRAME_DATA_LEN_16 ∧ FitsInt16 TURN_RADIUS_MM ∧
    FitsInt16 MIN_TURNING_RADIUS_MM ∧ FitsInt16 TURN_SPEED ∧
    FitsInt16 DESIRED_SPEED_mmPs ∧ FitsInt16 turn_speed := by
  have hall : ∀ p ∈ integerConstants header,
      FitsInt16 p.2 ∧ p.1 ∈ integerSymbols := by decide
  exact ⟨(hall (s, n) h).1, (hall (s, n) h).2, by decide, by decide, by decide,
    by decide, by decide, by decide, by decide, by decide, by decide⟩

/-- Witness of C10: the first definition of `TURN_SPEED`. -/
theorem integer_constants_fit_int16_witness :
    (Symbol.TURN_SPEED, (1050 : Int)) ∈ integerConstants header ∧
    FitsInt16 1050 :=
  ⟨by decide,
    (integer_constants_fit_int16 Symbol.TURN_SPEED 1050 (by decide)).1⟩

end Settings
